import Mathlib

/-!
Shallow embedding of `src/cfme/physical/physical_server.py` (the
`PhysicalServer` entity and `PhysicalServerCollection`) together with the
wait-poller primitive the module is built on.

Modelling conventions:
* Python scalar values that flow through `validate_stats` (UI accessor
  results and management-API stat/inventory values) are modelled by
  `PyVal` (an integer or a string), matching what `get_text_of` and the
  wrapanapi client return.
* Python exceptions are modelled by the error type `PSErr` and fallible
  code returns `Except PSErr _`.  `int()` applied to a non-numeric string
  raises `ValueError`; a mapping lookup of a missing key raises
  `KeyError`; `getattr` on a missing attribute raises `AttributeError`;
  subscripting a non-mapping value raises `TypeError`.
* Time is discrete: external readings (accessor text, last-refresh
  timestamps, probe responses) are streams indexed by a `Nat` poll
  counter.
-/

/-- A Python scalar value as it appears in the stat/inventory comparisons. -/
inductive PyVal where
  | int (n : Int)
  | str (s : String)
deriving DecidableEq, Repr

/-- The exceptions raised by the modelled code, plus the CFME error classes
imported by `physical_server.py` (`StatsDoNotMatch`, `HostStatsNotContains`,
`ProviderHasNoProperty`, `ItemNotFound`) and the wait-poller's
`TimedOutError`. -/
inductive PSErr where
  | keyError
  | attributeError
  | valueError
  | typeError
  | timedOut
  | itemNotFound
  | statsDoNotMatch (key : String) (serverVal cfmeVal : PyVal)
  | hostStatsNotContains (key : String)
  | providerHasNoProperty (key : String)
deriving DecidableEq, Repr

/-- A decimal digit's value, `none` for any other character. -/
def charDigit? (c : Char) : Option Nat :=
  if c.isDigit then some (c.toNat - 48) else none

/-- Left-to-right accumulation of a digit string's value; `none` as soon
as a non-digit appears. -/
def digitsVal (acc : Nat) : List Char → Option Nat
  | [] => some acc
  | c :: rest =>
    match charDigit? c with
    | none => none
    | some d => digitsVal (10 * acc + d) rest

/-- Python's `int(str)` on a decimal string: an optional leading minus
sign followed by at least one digit; anything else is rejected. -/
def strToInt? (s : String) : Option Int :=
  match s.data with
  | [] => none
  | '-' :: rest =>
    match rest with
    | [] => none
    | _ => (digitsVal 0 rest).map (fun n => -(n : Int))
  | l => (digitsVal 0 l).map (fun n => (n : Int))

/-- `int(v)`: identity on integers, numeric-string parse on strings;
a non-numeric string raises `ValueError`. -/
def pyToInt : PyVal → Except PSErr Int
  | PyVal.int n => Except.ok n
  | PyVal.str s =>
    match strToInt? s with
    | some n => Except.ok n
    | none => Except.error PSErr.valueError

/-- `m[key]` on a mapping, modelled as first-match lookup in an association
list; a missing key raises `KeyError`. -/
def dictLookup : List (String × PyVal) → String → Except PSErr PyVal
  | [], _ => Except.error PSErr.keyError
  | (k, v) :: rest, key => if k = key then Except.ok v else dictLookup rest key

/-- The mutable `server_inventory` variable of `validate_stats`: it starts
as the mapping returned by `client.inventory(...)` (`Sum.inl`) and is
overwritten inside the loop body by the looked-up scalar (`Sum.inr`). -/
def InvState : Type := Sum (List (String × PyVal)) PyVal

/-- `server_inventory[inventory]`: mapping lookup while the variable still
holds the mapping; subscripting a scalar raises `TypeError`. -/
def getItemInv : InvState → String → Except PSErr PyVal
  | Sum.inl m, key => dictLookup m key
  | Sum.inr _, _ => Except.error PSErr.typeError

/-- `PhysicalServer.STATS_TO_MATCH`. -/
def STATS_TO_MATCH : List String := ["cores_capacity", "memory_capacity"]

/-- `PhysicalServer.INVENTORY_TO_MATCH`. -/
def INVENTORY_TO_MATCH : List String := ["power_state"]

/-- The `try/except` wrapper of each `validate_stats` loop body:
`except KeyError` re-raises `HostStatsNotContains(key)` and
`except AttributeError` re-raises `ProviderHasNoProperty(key)`; every
other exception propagates unchanged. -/
def catchKeyAttr {α : Type} (key : String) : Except PSErr α → Except PSErr α
  | Except.ok a => Except.ok a
  | Except.error PSErr.keyError => Except.error (PSErr.hostStatsNotContains key)
  | Except.error PSErr.attributeError => Except.error (PSErr.providerHasNoProperty key)
  | Except.error e => Except.error e

/-- Body of the stats loop of `validate_stats` (before the `except`
clauses):
`cfme_stat = int(getattr(self, stat)(method=...))`,
`server_stat = int(server_stats[stat])`, then
`raise StatsDoNotMatch` when they differ.  `acc` models the entity's
named UI accessors (`none` = no such attribute, i.e. `AttributeError`). -/
def statTryBody (acc : String → Option PyVal) (server_stats : List (String × PyVal))
    (stat : String) : Except PSErr Unit :=
  match acc stat with
  | none => Except.error PSErr.attributeError
  | some uiVal =>
    match pyToInt uiVal with
    | Except.error e => Except.error e
    | Except.ok cfme_stat =>
      match dictLookup server_stats stat with
      | Except.error e => Except.error e
      | Except.ok sval =>
        match pyToInt sval with
        | Except.error e => Except.error e
        | Except.ok server_stat =>
          if server_stat ≠ cfme_stat then
            Except.error (PSErr.statsDoNotMatch stat (PyVal.int server_stat) (PyVal.int cfme_stat))
          else Except.ok ()

/-- The `for stat in stats_to_match` loop of `validate_stats`. -/
def statsLoop (acc : String → Option PyVal) (server_stats : List (String × PyVal)) :
    List String → Except PSErr Unit
  | [] => Except.ok ()
  | stat :: rest =>
    match catchKeyAttr stat (statTryBody acc server_stats stat) with
    | Except.ok _ => statsLoop acc server_stats rest
    | Except.error e => Except.error e

/-- Body of the inventory loop of `validate_stats`:
`cfme_inventory = getattr(self, inventory)(method=...)`,
`server_inventory = server_inventory[inventory]` (note the reassignment of
the loop-carried variable), then `raise StatsDoNotMatch` when they differ.
On success it returns the looked-up value, which becomes the new value of
the `server_inventory` variable. -/
def invTryBody (acc : String → Option PyVal) (server_inventory : InvState)
    (inv : String) : Except PSErr PyVal :=
  match acc inv with
  | none => Except.error PSErr.attributeError
  | some cfme_inventory =>
    match getItemInv server_inventory inv with
    | Except.error e => Except.error e
    | Except.ok sval =>
      if sval ≠ cfme_inventory then
        Except.error (PSErr.statsDoNotMatch inv sval cfme_inventory)
      else Except.ok sval

/-- The `for inventory in inventory_to_match` loop of `validate_stats`,
threading the reassigned `server_inventory` variable. -/
def invLoop (acc : String → Option PyVal) : InvState → List String → Except PSErr Unit
  | _, [] => Except.ok ()
  | sInv, inv :: rest =>
    match catchKeyAttr inv (invTryBody acc sInv inv) with
    | Except.ok newInv => invLoop acc (Sum.inr newInv) rest
    | Except.error e => Except.error e

/-- `PhysicalServer.validate_stats`: compares the UI-derived accessor
values against the management-API stats (`client.stats`) and inventory
(`client.inventory`) for the fixed key lists `STATS_TO_MATCH` and
`INVENTORY_TO_MATCH`. -/
def validate_stats (acc : String → Option PyVal)
    (server_stats server_inventory : List (String × PyVal)) : Except PSErr Unit :=
  match statsLoop acc server_stats STATS_TO_MATCH with
  | Except.error e => Except.error e
  | Except.ok _ => invLoop acc (Sum.inl server_inventory) INVENTORY_TO_MATCH

/-- The error classes named by the spec's error taxonomy for
`validate_stats` (`StatsMismatch`, `StatsMissing`, `CapabilityMissing`). -/
def PSErr.isDocumented : PSErr → Bool
  | PSErr.statsDoNotMatch _ _ _ => true
  | PSErr.hostStatsNotContains _ => true
  | PSErr.providerHasNoProperty _ => true
  | _ => false

/-- A registered provider, identified by name (`get_crud_by_name` resolves
a management-system name to such an object). -/
structure Provider where
  name : String
deriving DecidableEq, Repr

/-- One tuple produced by the five-table join of
`PhysicalServerCollection.all` / `find_by`:
`(physical_server.name, ext_management_system.name, network.ipaddress)`. -/
structure DbRow where
  name : String
  emsName : String
  ipaddress : String
deriving DecidableEq, Repr

/-- The `PhysicalServer` attr fields (`name`, `provider=None`,
`hostname=None`, `ip_address=None`, `custom_ident=None`). -/
structure PhysicalServer where
  name : String
  provider : Option Provider
  hostname : Option String
  ip_address : Option String
  custom_ident : Option String
deriving DecidableEq, Repr

namespace PhysicalServerCollection

/-- `self.instantiate(name=..., ip_address=..., provider=...)`: builds the
entity proxy with the remaining attrs left at their `None` defaults. -/
def instantiate (nm : String) (ip_address : String) (provider : Provider) : PhysicalServer :=
  { name := nm, provider := some provider, hostname := none,
    ip_address := some ip_address, custom_ident := none }

/-- The optional `.filter(ems_table.name == provider.name)` applied to the
join when the collection carries a `provider` filter. -/
def filteredRows (filters : Option Provider) (rows : List DbRow) : List DbRow :=
  match filters with
  | some p => rows.filter (fun r => r.emsName = p.name)
  | none => rows

/-- `PhysicalServerCollection.all(provider)`.  `rows` models the tuples of
the five-table join, `get_crud_by_name` the provider lookup by
management-system name, `filters` the collection-level `provider` filter,
and `provider` the caller-supplied argument (which the body immediately
overwrites with `provider = None`). -/
def all (filters : Option Provider) (get_crud_by_name : String → Provider)
    (rows : List DbRow) (provider : Option Provider) : List PhysicalServer :=
  let provider : Option Provider := none
  let provider : Option Provider :=
    match filters with
    | some p => some p
    | none => provider
  (filteredRows filters rows).map (fun r =>
    instantiate r.name r.ipaddress
      (match provider with
       | some p => p
       | none => get_crud_by_name r.emsName))

/-- `PhysicalServerCollection.find_by(provider, ph_name)`: same query and
provider reassignment as `all`, returning the first entity whose row name
equals `ph_name`, or Python's implicit `None`. -/
def find_by (filters : Option Provider) (get_crud_by_name : String → Provider)
    (rows : List DbRow) (provider : Option Provider) (ph_name : String) :
    Option PhysicalServer :=
  let provider : Option Provider := none
  let provider : Option Provider :=
    match filters with
    | some p => some p
    | none => provider
  (filteredRows filters rows).findSome? (fun r =>
    if ph_name = r.name then
      some (instantiate r.name r.ipaddress
        (match provider with
         | some p => p
         | none => get_crud_by_name r.emsName))
    else none)

end PhysicalServerCollection

/-!
The wait-poller.  `cfme.utils.wait.wait_for` is part of this repository but
not under `src/`; it is modelled from the spec (section 4.1).
-/

/-- Modelled from the spec: `cfme.utils.wait.wait_for` (not in `src/`)
"calls `predicate` repeatedly with `delay` spacing until it returns truthy
or `timeout` elapses ... fails with `TimedOut` ... when timeout is
exceeded".  The predicate is a state transformer returning the new state
and its truth value; the time budget is discretised into a number of
attempts. -/
def wait_for {σ : Type} (step : σ → σ × Bool) : Nat → σ → Except PSErr σ
  | 0, _ => Except.error PSErr.timedOut
  | fuel + 1, s =>
    if (step s).2 then Except.ok (step s).1 else wait_for step fuel (step s).1

/-- Modelled from the spec: the number of predicate attempts a
`wait_for(num_sec, delay)` budget allows — one initial attempt plus one per
full `delay` inside `num_sec`. -/
def attempts (num_sec delay : Nat) : Nat := num_sec / delay + 1

/-- A poll step over a discrete time line: each attempt consumes one tick
and reads the boolean signal at the tick it started from. -/
def poll_step (flag : Nat → Bool) (t : Nat) : Nat × Bool := (t + 1, flag t)

/-- The world state threaded through an entity action: the poll counter
plus how many remote-inventory refreshes (`self.refresh(provider, ...)`)
and displayed-view refreshes (`view.browser.refresh()`) have been
performed. -/
structure World where
  time : Nat
  invRefreshes : Nat
  viewRefreshes : Nat
deriving DecidableEq, Repr

/-- `_is_state_changed` (the closure inside
`PhysicalServer.wait_for_state_change`): refreshes the remote inventory
(`self.refresh(provider, handle_alert=True)`, abstracted to one inventory
refresh) and the displayed view (`view.browser.refresh()`), then compares
`desired_state == getattr(self, target)()`.  `accessor` is the stream of
values the named accessor reads over time. -/
def _is_state_changed (accessor : Nat → String) (desired_state : String)
    (w : World) : World × Bool :=
  (⟨w.time + 1, w.invRefreshes + 1, w.viewRefreshes + 1⟩,
   desired_state == accessor w.time)

/-- `PhysicalServer.wait_for_state_change(desired_state, target, provider,
view, timeout, delay)`: polls `_is_state_changed` under the wait-poller's
budget. -/
def wait_for_state_change (accessor : Nat → String) (desired_state : String)
    (timeout delay : Nat) (w : World) : Except PSErr World :=
  wait_for (_is_state_changed accessor desired_state) (attempts timeout delay) w

/-- The external readings available to one `PhysicalServer` entity:
`accessors nm t` is the value the named read accessor `nm` (reached via
`getattr(self, nm)`) reports at tick `t`, and `flash t` tells whether
`view.flash.is_displayed` holds at tick `t`. -/
structure EntityEnv where
  accessors : String → Nat → String
  flash : Nat → Bool

/-- The `**kwargs` accepted by `PhysicalServer._execute_action_button`
(each `kwargs.get(..., default)` / keyword parameter). -/
structure ActionKwargs where
  target : Option String
  provider : Option Provider
  desired_state : Option String
  timeout : Option Nat
  delay : Option Nat
  handle_alert : Option Bool

/-- `PhysicalServer._execute_action_button(button, option, handle_alert=True,
**kwargs)`: performs the toolbar action (navigation and the click are
abstracted away), then — when a truthy `desired_state` was supplied —
polls `wait_for_state_change` with `timeout = kwargs.get("timeout", 300)`
and `delay = kwargs.get("delay", 10)`; otherwise, when `handle_alert`
holds, waits up to 5s (delay 2s) for the flash banner.  A `desired_state`
with `target=None` would make `getattr(self, None)` raise `TypeError`. -/
def _execute_action_button (env : EntityEnv) (button option : String)
    (kwargs : ActionKwargs) (w : World) : Except PSErr World :=
  let timeout : Nat := kwargs.timeout.getD 300
  let delay : Nat := kwargs.delay.getD 10
  let handle_alert : Bool := kwargs.handle_alert.getD true
  let flashBranch : Except PSErr World :=
    if handle_alert then
      match wait_for (poll_step env.flash) (attempts 5 2) w.time with
      | Except.ok t =>
        Except.ok { time := t, invRefreshes := w.invRefreshes,
                    viewRefreshes := w.viewRefreshes }
      | Except.error e => Except.error e
    else Except.ok w
  match kwargs.desired_state with
  | some ds =>
    if ds = "" then flashBranch
    else
      match kwargs.target with
      | some tgt => wait_for_state_change (env.accessors tgt) ds timeout delay w
      | none => Except.error PSErr.typeError
  | none => flashBranch

/-- `PhysicalServer.power_on`. -/
def power_on (env : EntityEnv) (kwargs : ActionKwargs) (w : World) : Except PSErr World :=
  _execute_action_button env ("Power") ("Power On") kwargs w

/-- `PhysicalServer.power_off`. -/
def power_off (env : EntityEnv) (kwargs : ActionKwargs) (w : World) : Except PSErr World :=
  _execute_action_button env ("Power") ("Power Off") kwargs w

/-- `PhysicalServer.power_off_now`. -/
def power_off_now (env : EntityEnv) (kwargs : ActionKwargs) (w : World) : Except PSErr World :=
  _execute_action_button env ("Power") ("Power Off Immediately") kwargs w

/-- `PhysicalServer.restart`. -/
def restart (env : EntityEnv) (kwargs : ActionKwargs) (w : World) : Except PSErr World :=
  _execute_action_button env ("Power") ("Restart") kwargs w

/-- `PhysicalServer.restart_now`. -/
def restart_now (env : EntityEnv) (kwargs : ActionKwargs) (w : World) : Except PSErr World :=
  _execute_action_button env ("Power") ("Restart Immediately") kwargs w

/-- `PhysicalServer.restart_to_sys_setup`. -/
def restart_to_sys_setup (env : EntityEnv) (kwargs : ActionKwargs) (w : World) :
    Except PSErr World :=
  _execute_action_button env ("Power") ("Restart to System Setup") kwargs w

/-- `requests.get(url, verify=verify_ssl)` against the entity's out-of-band
HTTPS endpoint at tick `t`: `some ok` is a completed response with its
`.ok` flag, `none` is a `requests.exceptions.ConnectionError`. -/
def HttpProbe : Type := Nat → Option Bool

/-- `_send_request` (the closure inside `PhysicalServer._wait_restart_bmc`):
returns the response's `.ok` flag and turns a `ConnectionError` into
`False`. -/
def _send_request (httpGet : HttpProbe) (t : Nat) : Bool :=
  match httpGet t with
  | some ok => ok
  | none => false

/-- `PhysicalServer._wait_restart_bmc(delay=5, num_sec=300)`: first waits
until the probe stops responding, then waits until it responds again, each
phase under its own `wait_for(num_sec, delay)` budget.  Returns the tick
after the final successful poll. -/
def _wait_restart_bmc (httpGet : HttpProbe) (delay num_sec : Nat) (t : Nat) :
    Except PSErr Nat :=
  match wait_for (poll_step (fun u => !(_send_request httpGet u)))
      (attempts num_sec delay) t with
  | Except.error e => Except.error e
  | Except.ok t1 =>
    wait_for (poll_step (fun u => _send_request httpGet u)) (attempts num_sec delay) t1

/-- `PhysicalServer.restart_management_controller(wait_restart_bmc=False,
**kwargs)`: the toolbar action, then optionally `_wait_restart_bmc()` with
its default budget. -/
def restart_management_controller (env : EntityEnv) (httpGet : HttpProbe)
    (wait_restart_bmc : Bool) (kwargs : ActionKwargs) (w : World) : Except PSErr World :=
  match _execute_action_button env ("Power") ("Restart Management Controller") kwargs w with
  | Except.error e => Except.error e
  | Except.ok w1 =>
    if wait_restart_bmc then
      match _wait_restart_bmc httpGet 5 300 w1.time with
      | Except.error e => Except.error e
      | Except.ok t =>
        Except.ok { time := t, invRefreshes := w1.invRefreshes,
                    viewRefreshes := w1.viewRefreshes }
    else Except.ok w1

/-- `PhysicalServer.refresh(provider, handle_alert)`: reads
`provider.last_refresh_date()`, triggers "Refresh Relationships and Power
States", then polls `lambda: last_refresh != provider.last_refresh_date()`
with `num_sec=300, delay=30`.  `lrd` is the stream of last-refresh
timestamps; polling starts at the tick after the initial read. -/
def refresh (lrd : Nat → Nat) (t : Nat) : Except PSErr Nat :=
  let last_refresh : Nat := lrd t
  wait_for (poll_step (fun u => !(last_refresh == lrd u))) (attempts 300 30) (t + 1)

/-- Modelled from the spec: the listing view's
`entities.get_entity(name=..., surf_pages=True)` (the widgetastic view
layer is not in `src/`) — scans every page of the paginated listing and
raises `ItemNotFound` when no entity of that name is present on any page.
`pages` is the list of pages, each a list of displayed entity names. -/
def get_entity (pages : List (List String)) (nm : String) : Except PSErr Unit :=
  if pages.any (fun page => page.contains nm) then Except.ok ()
  else Except.error PSErr.itemNotFound

/-- `PhysicalServer.exists`: navigates to the "All" listing and looks the
entity's name up with `get_entity(..., surf_pages=True)`; `ItemNotFound`
is caught and yields `False`, success yields `True`. -/
def exists_ (pages : List (List String)) (nm : String) : Bool :=
  match get_entity pages nm with
  | Except.ok _ => true
  | Except.error _ => false

/-!
Helper lemmas about the wait-poller.
-/

/-- The wait-poller's only failure is `TimedOut`. -/
theorem wait_for_error_eq {σ : Type} (step : σ → σ × Bool) :
    ∀ (fuel : Nat) (s : σ) (e : PSErr),
      wait_for step fuel s = Except.error e → e = PSErr.timedOut := by
  intro fuel
  induction fuel with
  | zero =>
    intro s e h
    simp only [wait_for] at h
    exact (Except.error.inj h).symm
  | succ n ih =>
    intro s e h
    simp only [wait_for] at h
    by_cases hb : (step s).2 = true
    · simp [hb] at h
    · simp only [hb, if_false, Bool.false_eq_true, ite_false] at h
      exact ih _ e h

/-- Success of the poll on `_is_state_changed`: some `k ≥ 1` attempts were
made within the budget, each bumped the tick and both refresh counters,
and the accessor equalled the desired state at the tick the last attempt
read. -/
theorem wait_for_isc_ok (accessor : Nat → String) (ds : String) :
    ∀ (fuel : Nat) (w w1 : World),
      wait_for (_is_state_changed accessor ds) fuel w = Except.ok w1 →
      ∃ k, 1 ≤ k ∧ k ≤ fuel ∧ w1.time = w.time + k ∧
        w1.invRefreshes = w.invRefreshes + k ∧
        w1.viewRefreshes = w.viewRefreshes + k ∧
        ds = accessor (w.time + k - 1) := by
  intro fuel
  induction fuel with
  | zero =>
    intro w w1 h
    simp [wait_for] at h
  | succ n ih =>
    intro w w1 h
    simp only [wait_for] at h
    by_cases hb : (_is_state_changed accessor ds w).2 = true
    · simp only [hb, if_true, ite_true] at h
      have hw : (_is_state_changed accessor ds w).1 = w1 := Except.ok.inj h
      have hds : ds = accessor w.time := eq_of_beq hb
      refine ⟨1, le_refl 1, Nat.succ_le_succ (Nat.zero_le n), ?_, ?_, ?_, ?_⟩
      · rw [← hw]; rfl
      · rw [← hw]; rfl
      · rw [← hw]; rfl
      · simpa using hds
    · simp only [hb, if_false, Bool.false_eq_true, ite_false] at h
      obtain ⟨k, hk1, hkn, ht, hi, hv, hacc⟩ := ih _ w1 h
      refine ⟨k + 1, Nat.succ_le_succ (Nat.zero_le k), Nat.succ_le_succ hkn, ?_, ?_, ?_, ?_⟩
      · have : (_is_state_changed accessor ds w).1.time = w.time + 1 := rfl
        omega
      · have : (_is_state_changed accessor ds w).1.invRefreshes = w.invRefreshes + 1 := rfl
        omega
      · have : (_is_state_changed accessor ds w).1.viewRefreshes = w.viewRefreshes + 1 := rfl
        omega
      · have harg : (_is_state_changed accessor ds w).1.time + k - 1 = w.time + (k + 1) - 1 := by
          have : (_is_state_changed accessor ds w).1.time = w.time + 1 := rfl
          omega
        rw [harg] at hacc
        exact hacc

/-- If the accessor never reports the desired state anywhere in the
budget's window, the poll on `_is_state_changed` times out. -/
theorem wait_for_isc_err (accessor : Nat → String) (ds : String) :
    ∀ (fuel : Nat) (w : World),
      (∀ k, k < fuel → (ds == accessor (w.time + k)) = false) →
      wait_for (_is_state_changed accessor ds) fuel w = Except.error PSErr.timedOut := by
  intro fuel
  induction fuel with
  | zero =>
    intro w _
    simp [wait_for]
  | succ n ih =>
    intro w hAll
    have hb : (_is_state_changed accessor ds w).2 = false := by
      have := hAll 0 (Nat.succ_le_succ (Nat.zero_le n))
      simpa [_is_state_changed] using this
    simp only [wait_for, hb, Bool.false_eq_true, ite_false, if_false]
    apply ih
    intro k hk
    have harg : (_is_state_changed accessor ds w).1.time + k = w.time + (k + 1) := by
      have : (_is_state_changed accessor ds w).1.time = w.time + 1 := rfl
      omega
    rw [harg]
    exact hAll (k + 1) (Nat.succ_le_succ hk)

/-- Success of the poll on `poll_step`: the first `k` polls read `false`
and poll `k` (still inside the budget) read `true`, finishing at tick
`t + k + 1`. -/
theorem wait_for_poll_ok (flag : Nat → Bool) :
    ∀ (fuel t t1 : Nat),
      wait_for (poll_step flag) fuel t = Except.ok t1 →
      ∃ k, k < fuel ∧ t1 = t + k + 1 ∧ flag (t + k) = true ∧
        ∀ j, j < k → flag (t + j) = false := by
  intro fuel
  induction fuel with
  | zero =>
    intro t t1 h
    simp [wait_for] at h
  | succ n ih =>
    intro t t1 h
    simp only [wait_for] at h
    by_cases hb : (poll_step flag t).2 = true
    · simp only [hb, if_true, ite_true] at h
      have ht : (poll_step flag t).1 = t1 := Except.ok.inj h
      refine ⟨0, Nat.succ_le_succ (Nat.zero_le n), ?_, ?_, ?_⟩
      · simpa [poll_step] using ht.symm
      · simpa [poll_step] using hb
      · intro j hj; omega
    · simp only [hb, if_false, Bool.false_eq_true, ite_false] at h
      obtain ⟨k, hkn, ht, hflag, hmin⟩ := ih _ t1 h
      refine ⟨k + 1, Nat.succ_le_succ hkn, ?_, ?_, ?_⟩
      · have : (poll_step flag t).1 = t + 1 := rfl
        omega
      · have harg : (poll_step flag t).1 + k = t + (k + 1) := by
          have : (poll_step flag t).1 = t + 1 := rfl
          omega
        rw [harg] at hflag
        exact hflag
      · intro j hj
        cases j with
        | zero =>
          simpa [poll_step] using hb
        | succ j0 =>
          have harg : (poll_step flag t).1 + j0 = t + (j0 + 1) := by
            have : (poll_step flag t).1 = t + 1 := rfl
            omega
          have := hmin j0 (by omega)
          rw [harg] at this
          exact this

/-- If the signal stays `false` throughout the budget's window, the poll
on `poll_step` times out. -/
theorem wait_for_poll_err (flag : Nat → Bool) :
    ∀ (fuel t : Nat), (∀ k, k < fuel → flag (t + k) = false) →
      wait_for (poll_step flag) fuel t = Except.error PSErr.timedOut := by
  intro fuel
  induction fuel with
  | zero =>
    intro t _
    simp [wait_for]
  | succ n ih =>
    intro t hAll
    have hb : (poll_step flag t).2 = false := by
      have := hAll 0 (Nat.succ_le_succ (Nat.zero_le n))
      simpa [poll_step] using this
    simp only [wait_for, hb, Bool.false_eq_true, ite_false, if_false]
    apply ih
    intro k hk
    have harg : (poll_step flag t).1 + k = t + (k + 1) := by
      have : (poll_step flag t).1 = t + 1 := rfl
      omega
    rw [harg]
    exact hAll (k + 1) (Nat.succ_le_succ hk)

/-!
Claim theorems.
-/

/-- C2: every call to `all(provider)` or `find_by(provider, name)` discards
the caller-supplied `provider` argument: the result is the same whatever
argument is passed, the query is filtered by the collection-level
`provider` filter when one is set, and each produced entity's provider is
resolved from that filter when set and otherwise by
`get_crud_by_name` on the row's management-system name — never from the
argument. -/
theorem claim_C2_provider_arg_discarded :
    ∀ (filters : Option Provider) (get_crud_by_name : String → Provider)
      (rows : List DbRow) (p1 p2 : Option Provider) (nm : String),
      PhysicalServerCollection.all filters get_crud_by_name rows p1 =
        PhysicalServerCollection.all filters get_crud_by_name rows p2 ∧
      PhysicalServerCollection.find_by filters get_crud_by_name rows p1 nm =
        PhysicalServerCollection.find_by filters get_crud_by_name rows p2 nm ∧
      PhysicalServerCollection.all filters get_crud_by_name rows p1 =
        (PhysicalServerCollection.filteredRows filters rows).map (fun r =>
          PhysicalServerCollection.instantiate r.name r.ipaddress
            (match filters with
             | some f => f
             | none => get_crud_by_name r.emsName)) ∧
      PhysicalServerCollection.find_by filters get_crud_by_name rows p1 nm =
        (PhysicalServerCollection.filteredRows filters rows).findSome? (fun r =>
          if nm = r.name then
            some (PhysicalServerCollection.instantiate r.name r.ipaddress
              (match filters with
               | some f => f
               | none => get_crud_by_name r.emsName))
          else none) := by
  intro filters get_crud_by_name rows p1 p2 nm
  cases filters <;> exact ⟨rfl, rfl, rfl, rfl⟩

/-- C10: when no row of the (possibly filter-restricted) join carries the
requested name, `find_by` returns Python's implicit `None` instead of
raising any error. -/
theorem claim_C10_find_by_none (filters : Option Provider)
    (get_crud_by_name : String → Provider) (rows : List DbRow)
    (provider : Option Provider) (ph_name : String)
    (h : ∀ r ∈ PhysicalServerCollection.filteredRows filters rows, r.name ≠ ph_name) :
    PhysicalServerCollection.find_by filters get_crud_by_name rows provider ph_name =
      none := by
  unfold PhysicalServerCollection.find_by
  apply List.findSome?_eq_none_iff.mpr
  intro r hr
  have hne : ph_name ≠ r.name := fun hc => h r hr (hc.symm)
  simp [hne]

/-- Witness for C10 at a concrete join: a one-row store without the
requested name. -/
theorem claim_C10_witness :
    PhysicalServerCollection.find_by none (fun s => ⟨s⟩)
      [⟨"srv1", "ems1", "10.0.0.1"⟩] none ("srv2") = none :=
  claim_C10_find_by_none none (fun s => ⟨s⟩) [⟨"srv1", "ems1", "10.0.0.1"⟩] none
    ("srv2") (by decide)

/-- C5: `exists` is `true` iff an entity of that name is present on some
page of the paginated listing, and it is `false` exactly when the lookup
signalled `ItemNotFound` — which is caught rather than propagated. -/
theorem claim_C5_exists_iff :
    ∀ (pages : List (List String)) (nm : String),
      (exists_ pages nm = true ↔ ∃ page ∈ pages, nm ∈ page) ∧
      (exists_ pages nm = false ↔ get_entity pages nm = Except.error PSErr.itemNotFound) := by
  intro pages nm
  by_cases hc : pages.any (fun page => page.contains nm) = true
  · have hg : get_entity pages nm = Except.ok () := by
      unfold get_entity
      rw [if_pos hc]
    have he : exists_ pages nm = true := by
      unfold exists_
      rw [hg]
    refine ⟨?_, ?_⟩
    · rw [he]
      simp only [true_iff]
      simpa [List.any_eq_true, List.elem_iff] using hc
    · rw [he, hg]
      constructor
      · intro h
        exact absurd h (by simp)
      · intro h
        exact absurd h (by simp)
  · have hg : get_entity pages nm = Except.error PSErr.itemNotFound := by
      unfold get_entity
      rw [if_neg hc]
    have he : exists_ pages nm = false := by
      unfold exists_
      rw [hg]
    refine ⟨?_, ?_⟩
    · rw [he]
      simp only [Bool.false_eq_true, false_iff]
      intro hex
      apply hc
      simp only [List.any_eq_true, List.elem_iff]
      simpa using hex
    · rw [he, hg]
      simp

/-- C9: `validate_stats` converts both compared stat values with `int()`
inside a `try` block whose `except` clauses only catch `KeyError` and
`AttributeError`, so a non-numeric string value (here on the remote side)
escapes as a `ValueError`, an error outside the documented taxonomy. -/
theorem claim_C9_value_error_escapes :
    validate_stats (fun _ => some (PyVal.int 16))
        [("cores_capacity", PyVal.str ("sixteen")), ("memory_capacity", PyVal.int 1)]
        [("power_state", PyVal.int 16)] = Except.error PSErr.valueError ∧
    catchKeyAttr ("cores_capacity")
        (Except.error PSErr.valueError : Except PSErr Unit) =
      Except.error PSErr.valueError ∧
    PSErr.isDocumented PSErr.valueError = false :=
  ⟨rfl, rfl, rfl⟩

/-- C1: with the UI accessors and the remote mappings supplying integer
values for every key of `STATS_TO_MATCH` and a value for the key of
`INVENTORY_TO_MATCH`, `validate_stats` succeeds iff every key's UI value
equals its remote value exactly, and on the first differing key it raises
`StatsDoNotMatch` naming that key and carrying the remote and UI values. -/
theorem claim_C1_validate_stats_mismatch
    (acc : String → Option PyVal) (ss si : List (String × PyVal))
    (a1 a2 s1 s2 : Int) (pv sv : PyVal)
    (h1 : acc ("cores_capacity") = some (PyVal.int a1))
    (h2 : acc ("memory_capacity") = some (PyVal.int a2))
    (h3 : acc ("power_state") = some pv)
    (h4 : dictLookup ss ("cores_capacity") = Except.ok (PyVal.int s1))
    (h5 : dictLookup ss ("memory_capacity") = Except.ok (PyVal.int s2))
    (h6 : dictLookup si ("power_state") = Except.ok sv) :
    (validate_stats acc ss si = Except.ok () ↔ (s1 = a1 ∧ s2 = a2 ∧ sv = pv)) ∧
    (s1 ≠ a1 →
      validate_stats acc ss si =
        Except.error
          (PSErr.statsDoNotMatch ("cores_capacity") (PyVal.int s1) (PyVal.int a1))) ∧
    (s1 = a1 → s2 ≠ a2 →
      validate_stats acc ss si =
        Except.error
          (PSErr.statsDoNotMatch ("memory_capacity") (PyVal.int s2) (PyVal.int a2))) ∧
    (s1 = a1 → s2 = a2 → sv ≠ pv →
      validate_stats acc ss si =
        Except.error (PSErr.statsDoNotMatch ("power_state") sv pv)) := by
  by_cases e1 : s1 = a1 <;> by_cases e2 : s2 = a2 <;> by_cases e3 : sv = pv <;>
    simp only [validate_stats, STATS_TO_MATCH, INVENTORY_TO_MATCH, statsLoop, invLoop,
      statTryBody, invTryBody, catchKeyAttr, getItemInv, pyToInt,
      h1, h2, h3, h4, h5, h6, e1, e2, e3, ne_eq, not_true, not_false_iff,
      ite_true, ite_false] <;>
    simp_all

/-- Witness for C1: concrete matching stats (`cores_capacity=16`,
`memory_capacity=32768`, `power_state="on"`) make `validate_stats`
succeed. -/
theorem claim_C1_witness :
    validate_stats
      (fun k =>
        if k = "cores_capacity" then some (PyVal.int 16)
        else if k = "memory_capacity" then some (PyVal.int 32768)
        else if k = "power_state" then some (PyVal.str ("on"))
        else none)
      [("cores_capacity", PyVal.int 16), ("memory_capacity", PyVal.int 32768)]
      [("power_state", PyVal.str ("on"))] = Except.ok () :=
  (claim_C1_validate_stats_mismatch
    (fun k =>
      if k = "cores_capacity" then some (PyVal.int 16)
      else if k = "memory_capacity" then some (PyVal.int 32768)
      else if k = "power_state" then some (PyVal.str ("on"))
      else none)
    [("cores_capacity", PyVal.int 16), ("memory_capacity", PyVal.int 32768)]
    [("power_state", PyVal.str ("on"))]
    16 32768 16 32768 (PyVal.str ("on")) (PyVal.str ("on"))
    rfl rfl rfl rfl rfl rfl).1.mpr ⟨rfl, rfl, rfl⟩

/-- C3: `wait_for_state_change` returns successfully only when the target
accessor's value (read after the attempt's inventory and view refreshes)
equalled `desired_state` at the last poll; when the accessor never reports
the desired state within the budget it fails, and every failure is the
wait-poller's `TimedOut`. -/
theorem claim_C3_wait_for_state_change
    (accessor : Nat → String) (desired_state : String) (timeout delay : Nat)
    (w w1 : World) :
    (wait_for_state_change accessor desired_state timeout delay w = Except.ok w1 →
      desired_state = accessor (w1.time - 1)) ∧
    ((∀ k, k < attempts timeout delay → desired_state ≠ accessor (w.time + k)) →
      wait_for_state_change accessor desired_state timeout delay w =
        Except.error PSErr.timedOut) ∧
    (∀ e, wait_for_state_change accessor desired_state timeout delay w = Except.error e →
      e = PSErr.timedOut) := by
  refine ⟨?_, ?_, ?_⟩
  · intro h
    obtain ⟨k, hk1, _, ht, _, _, hacc⟩ :=
      wait_for_isc_ok accessor desired_state (attempts timeout delay) w w1 h
    rw [ht]
    exact hacc
  · intro hAll
    apply wait_for_isc_err
    intro k hk
    exact beq_eq_false_iff_ne.mpr (hAll k hk)
  · intro e h
    exact wait_for_error_eq _ _ _ _ h

/-- Witness for C3: an accessor constantly at the desired state succeeds
on the first poll (which read tick 0), and an accessor that never reaches
it times out. -/
theorem claim_C3_witness :
    (("on" : String) = (fun _ : Nat => "on") (((⟨1, 1, 1⟩ : World)).time - 1)) ∧
    wait_for_state_change (fun _ : Nat => "off") ("on") 20 10 ⟨0, 0, 0⟩ =
      Except.error PSErr.timedOut := by
  constructor
  · exact (claim_C3_wait_for_state_change (fun _ : Nat => "on") ("on") 20 10
      ⟨0, 0, 0⟩ ⟨1, 1, 1⟩).1 rfl
  · exact (claim_C3_wait_for_state_change (fun _ : Nat => "off") ("on") 20 10
      ⟨0, 0, 0⟩ ⟨0, 0, 0⟩).2.1 (by intro k hk; decide)

/-- C7: `refresh(provider)` reads the last-refresh timestamp, triggers the
refresh action, and returns successfully only when a later poll observed a
timestamp different from the initial read, all within the
`num_sec=300, delay=30` budget; if the timestamp never changes inside that
budget it raises `TimedOut`. -/
theorem claim_C7_refresh (lrd : Nat → Nat) (t t1 : Nat) :
    (refresh lrd t = Except.ok t1 →
      lrd (t1 - 1) ≠ lrd t ∧ t1 ≤ t + 1 + attempts 300 30) ∧
    ((∀ k, k < attempts 300 30 → lrd (t + 1 + k) = lrd t) →
      refresh lrd t = Except.error PSErr.timedOut) := by
  constructor
  · intro h
    obtain ⟨k, hk, ht1, hflag, _⟩ :=
      wait_for_poll_ok (fun u => !(lrd t == lrd u)) (attempts 300 30) (t + 1) t1 h
    constructor
    · have hne : (lrd t == lrd (t + 1 + k)) = false := by
        cases hb : lrd t == lrd (t + 1 + k)
        · rfl
        · rw [hb] at hflag
          exact absurd hflag (by simp)
      have : lrd t ≠ lrd (t + 1 + k) := beq_eq_false_iff_ne.mp hne
      have harg : t1 - 1 = t + 1 + k := by omega
      rw [harg]
      exact fun hc => this hc.symm
    · omega
  · intro hAll
    apply wait_for_poll_err
    intro k hk
    have := hAll k hk
    simp [this]

/-- Witness for C7: a timestamp stream that changes at tick 2 lets
`refresh` return at tick 3; a constant stream times out. -/
theorem claim_C7_witness :
    ((fun u : Nat => if 2 ≤ u then 1 else 0) (3 - 1) ≠
        (fun u : Nat => if 2 ≤ u then 1 else 0) 0 ∧
      3 ≤ 0 + 1 + attempts 300 30) ∧
    refresh (fun _ : Nat => 5) 0 = Except.error PSErr.timedOut := by
  constructor
  · exact (claim_C7_refresh (fun u : Nat => if 2 ≤ u then 1 else 0) 0 3).1 rfl
  · exact (claim_C7_refresh (fun _ : Nat => 5) 0 0).2 (by intro k hk; rfl)

/-- C8: `_wait_restart_bmc` with its default `delay=5, num_sec=300` budget
performs two sequential bounded polls of the out-of-band probe: success
means there was an intermediate tick at which the probe had stopped
responding (all earlier polls of phase one saw it responding), after which
the second poll waited until it responded again (all earlier polls of
phase two saw it down), each phase within its own `attempts 300 5` budget;
and a connection error counts as not responding. -/
theorem claim_C8_wait_restart_bmc (httpGet : HttpProbe) (t t2 : Nat) :
    (_wait_restart_bmc httpGet 5 300 t = Except.ok t2 →
      ∃ t1, t < t1 ∧ t1 ≤ t + attempts 300 5 ∧ t1 < t2 ∧ t2 ≤ t1 + attempts 300 5 ∧
        _send_request httpGet (t1 - 1) = false ∧
        (∀ j, j < t1 - 1 - t → _send_request httpGet (t + j) = true) ∧
        _send_request httpGet (t2 - 1) = true ∧
        (∀ j, j < t2 - 1 - t1 → _send_request httpGet (t1 + j) = false)) ∧
    (∀ u, httpGet u = none → _send_request httpGet u = false) := by
  constructor
  · intro h
    unfold _wait_restart_bmc at h
    cases hp1 : wait_for (poll_step (fun u => !(_send_request httpGet u)))
        (attempts 300 5) t with
    | error e =>
      rw [hp1] at h
      exact absurd h (by simp)
    | ok t1 =>
      rw [hp1] at h
      obtain ⟨k1, hk1, ht1, hf1, hmin1⟩ :=
        wait_for_poll_ok (fun u => !(_send_request httpGet u)) (attempts 300 5) t t1 hp1
      obtain ⟨k2, hk2, ht2, hf2, hmin2⟩ :=
        wait_for_poll_ok (fun u => _send_request httpGet u) (attempts 300 5) t1 t2 h
      refine ⟨t1, by omega, by omega, by omega, by omega, ?_, ?_, ?_, ?_⟩
      · have harg : t1 - 1 = t + k1 := by omega
        rw [harg]
        cases hb : _send_request httpGet (t + k1)
        · rfl
        · rw [hb] at hf1
          exact absurd hf1 (by simp)
      · intro j hj
        have hjk : j < k1 := by omega
        have := hmin1 j hjk
        cases hb : _send_request httpGet (t + j)
        · rw [hb] at this
          exact absurd this (by simp)
        · rfl
      · have harg : t2 - 1 = t1 + k2 := by omega
        rw [harg]
        exact hf2
      · intro j hj
        exact hmin2 j (by omega)
  · intro u hu
    simp [_send_request, hu]

/-- Witness for C8: a probe that answers at tick 0, drops (connection
error) at tick 1 and answers again from tick 2 on makes
`_wait_restart_bmc` succeed at tick 3; and the tick-1 connection error
reads as "not responding". -/
theorem claim_C8_witness :
    (∃ t1, 0 < t1 ∧ t1 ≤ 0 + attempts 300 5 ∧ t1 < 3 ∧ 3 ≤ t1 + attempts 300 5 ∧
      _send_request (fun u : Nat => if u = 1 then none else some true) (t1 - 1) = false ∧
      (∀ j, j < t1 - 1 - 0 →
        _send_request (fun u : Nat => if u = 1 then none else some true) (0 + j) = true) ∧
      _send_request (fun u : Nat => if u = 1 then none else some true) (3 - 1) = true ∧
      (∀ j, j < 3 - 1 - t1 →
        _send_request (fun u : Nat => if u = 1 then none else some true) (t1 + j) = false)) ∧
    _send_request (fun u : Nat => if u = 1 then none else some true) 1 = false := by
  constructor
  · exact (claim_C8_wait_restart_bmc (fun u : Nat => if u = 1 then none else some true)
      0 3).1 rfl
  · exact (claim_C8_wait_restart_bmc (fun u : Nat => if u = 1 then none else some true)
      0 3).2 1 rfl

/-- `restart_management_controller` with `wait_restart_bmc=False` is just
the toolbar action. -/
theorem rmc_no_wait (env : EntityEnv) (httpGet : HttpProbe) (kwargs : ActionKwargs)
    (w : World) :
    restart_management_controller env httpGet false kwargs w =
      _execute_action_button env ("Power") ("Restart Management Controller") kwargs w := by
  unfold restart_management_controller
  cases hx : _execute_action_button env ("Power") ("Restart Management Controller")
      kwargs w with
  | error e => rfl
  | ok w1 => rfl

/-- C6: every power action invoked with a truthy `desired_state` argument
polls the accessor named by `target` through `wait_for_state_change`, with
timeout `kwargs.get("timeout", 300)` and delay `kwargs.get("delay", 10)`;
all seven actions share this behaviour, and a successful poll has made
some `k ≥ 1` attempts within the budget, refreshing the remote inventory
and the displayed view once per attempt, with the accessor reporting
`desired_state` at the last attempt's read. -/
theorem claim_C6_power_actions (env : EntityEnv) (httpGet : HttpProbe)
    (kwargs : ActionKwargs) (w : World) (tgt ds : String)
    (htgt : kwargs.target = some tgt)
    (hds : kwargs.desired_state = some ds)
    (hne : ds ≠ "") :
    power_on env kwargs w =
      wait_for_state_change (env.accessors tgt) ds (kwargs.timeout.getD 300)
        (kwargs.delay.getD 10) w ∧
    power_off env kwargs w = power_on env kwargs w ∧
    power_off_now env kwargs w = power_on env kwargs w ∧
    restart env kwargs w = power_on env kwargs w ∧
    restart_now env kwargs w = power_on env kwargs w ∧
    restart_to_sys_setup env kwargs w = power_on env kwargs w ∧
    restart_management_controller env httpGet false kwargs w = power_on env kwargs w ∧
    (∀ w1, power_on env kwargs w = Except.ok w1 →
      ∃ k, 1 ≤ k ∧ k ≤ attempts (kwargs.timeout.getD 300) (kwargs.delay.getD 10) ∧
        w1.time = w.time + k ∧ w1.invRefreshes = w.invRefreshes + k ∧
        w1.viewRefreshes = w.viewRefreshes + k ∧
        ds = env.accessors tgt (w.time + k - 1)) := by
  have hbase : power_on env kwargs w =
      wait_for_state_change (env.accessors tgt) ds (kwargs.timeout.getD 300)
        (kwargs.delay.getD 10) w := by
    unfold power_on _execute_action_button
    rw [hds, htgt]
    simp [hne]
  refine ⟨hbase, rfl, rfl, rfl, rfl, rfl, (rmc_no_wait env httpGet kwargs w).trans rfl, ?_⟩
  intro w1 h
  rw [hbase] at h
  unfold wait_for_state_change at h
  exact wait_for_isc_ok (env.accessors tgt) ds
    (attempts (kwargs.timeout.getD 300) (kwargs.delay.getD 10)) w w1 h

/-- The concrete entity environment of the C6 witness: the accessor always
reports "on" and the flash banner is always displayed. -/
def env_c6 : EntityEnv := ⟨fun _ _ => "on", fun _ => true⟩

/-- The concrete kwargs of the C6 witness: `target="power_state"`,
`desired_state="on"`, no timeout/delay override. -/
def kwargs_c6 : ActionKwargs := ⟨some ("power_state"), none, some ("on"), none, none, none⟩

/-- The concrete probe of the C6 witness. -/
def httpGet_c6 : HttpProbe := fun _ => some true

/-- Witness for C6: at the concrete environment, `power_on` is the default
300s/10s poll and its success after one attempt bumped both refresh
counters once with the accessor reporting "on". -/
theorem claim_C6_witness :
    power_on env_c6 kwargs_c6 ⟨0, 0, 0⟩ =
      wait_for_state_change (env_c6.accessors ("power_state")) ("on")
        (kwargs_c6.timeout.getD 300) (kwargs_c6.delay.getD 10) ⟨0, 0, 0⟩ ∧
    (∃ k, 1 ≤ k ∧ k ≤ attempts (kwargs_c6.timeout.getD 300) (kwargs_c6.delay.getD 10) ∧
      (⟨1, 1, 1⟩ : World).time = (⟨0, 0, 0⟩ : World).time + k ∧
      (⟨1, 1, 1⟩ : World).invRefreshes = (⟨0, 0, 0⟩ : World).invRefreshes + k ∧
      (⟨1, 1, 1⟩ : World).viewRefreshes = (⟨0, 0, 0⟩ : World).viewRefreshes + k ∧
      ("on" : String) = env_c6.accessors ("power_state") ((⟨0, 0, 0⟩ : World).time + k - 1)) := by
  have h := claim_C6_power_actions env_c6 httpGet_c6 kwargs_c6 ⟨0, 0, 0⟩
    ("power_state") ("on") rfl rfl (by decide)
  exact ⟨h.1, h.2.2.2.2.2.2.2 ⟨1, 1, 1⟩ rfl⟩

/-- A failed `dictLookup` can only be `KeyError`. -/
theorem dictLookup_error_eq :
    ∀ (m : List (String × PyVal)) (key : String) (e : PSErr),
      dictLookup m key = Except.error e → e = PSErr.keyError := by
  intro m
  induction m with
  | nil =>
    intro key e h
    simp only [dictLookup] at h
    exact (Except.error.inj h).symm
  | cons p rest ih =>
    intro key e h
    obtain ⟨k, v⟩ := p
    simp only [dictLookup] at h
    by_cases hk : k = key
    · rw [if_pos hk] at h
      exact absurd h (by simp)
    · rw [if_neg hk] at h
      exact ih key e h

/-- A failed `pyToInt` can only be `ValueError`. -/
theorem pyToInt_error_eq (v : PyVal) (e : PSErr) :
    pyToInt v = Except.error e → e = PSErr.valueError := by
  intro h
  simp only [pyToInt] at h
  split at h
  · exact absurd h (by simp)
  · split at h
    · exact absurd h (by simp)
    · exact (Except.error.inj h).symm

/-- An error out of the `except` wrapper is one of the two mapped errors,
or the body's own error unchanged — which then is neither `KeyError` nor
`AttributeError`. -/
theorem catchKeyAttr_error_cases {α : Type} (key : String) (r : Except PSErr α)
    (e : PSErr) :
    catchKeyAttr key r = Except.error e →
    e = PSErr.hostStatsNotContains key ∨ e = PSErr.providerHasNoProperty key ∨
      (r = Except.error e ∧ e ≠ PSErr.keyError ∧ e ≠ PSErr.attributeError) := by
  cases r with
  | ok a =>
    intro h
    exact absurd h (by simp [catchKeyAttr])
  | error e0 =>
    intro h
    by_cases hk : e0 = PSErr.keyError
    · subst hk
      exact Or.inl (Except.error.inj h).symm
    · by_cases ha : e0 = PSErr.attributeError
      · subst ha
        exact Or.inr (Or.inl (Except.error.inj h).symm)
      · have hr : catchKeyAttr key (Except.error e0) = (Except.error e0 : Except PSErr α) := by
          cases e0 <;> first | rfl | exact absurd rfl hk | exact absurd rfl ha
        rw [hr] at h
        have he : e0 = e := Except.error.inj h
        subst he
        exact Or.inr (Or.inr ⟨rfl, hk, ha⟩)

/-- Error kinds the unguarded stats-loop body can produce. -/
theorem statTryBody_error_kinds (acc : String → Option PyVal)
    (ss : List (String × PyVal)) (stat : String) (e : PSErr) :
    statTryBody acc ss stat = Except.error e →
    e = PSErr.attributeError ∨ e = PSErr.keyError ∨ e = PSErr.valueError ∨
      PSErr.isDocumented e = true := by
  intro h
  simp only [statTryBody] at h
  split at h
  · exact Or.inl (Except.error.inj h).symm
  · rename_i uiVal hacc
    split at h
    · rename_i e0 hpy
      have he : e0 = e := Except.error.inj h
      exact Or.inr (Or.inr (Or.inl (by rw [← he]; exact pyToInt_error_eq uiVal e0 hpy)))
    · rename_i cfme_stat hpy
      split at h
      · rename_i e1 hdd
        have he : e1 = e := Except.error.inj h
        exact Or.inr (Or.inl (by rw [← he]; exact dictLookup_error_eq ss stat e1 hdd))
      · rename_i sval hdd
        split at h
        · rename_i e2 hpy2
          have he : e2 = e := Except.error.inj h
          exact Or.inr (Or.inr (Or.inl (by rw [← he]; exact pyToInt_error_eq sval e2 hpy2)))
        · rename_i server_stat hpy2
          split at h
          · have he := Except.error.inj h
            exact Or.inr (Or.inr (Or.inr (by rw [← he]; rfl)))
          · exact absurd h (by simp)

/-- Error kinds the unguarded inventory-loop body can produce while the
`server_inventory` variable still holds the mapping. -/
theorem invTryBody_error_kinds (acc : String → Option PyVal)
    (si : List (String × PyVal)) (inv : String) (e : PSErr) :
    invTryBody acc (Sum.inl si) inv = Except.error e →
    e = PSErr.attributeError ∨ e = PSErr.keyError ∨ PSErr.isDocumented e = true := by
  intro h
  simp only [invTryBody] at h
  split at h
  · exact Or.inl (Except.error.inj h).symm
  · rename_i cfme_inventory hacc
    split at h
    · rename_i e1 hdd
      have he : e1 = e := Except.error.inj h
      have hke : e1 = PSErr.keyError :=
        dictLookup_error_eq si inv e1 (by simpa [getItemInv] using hdd)
      exact Or.inr (Or.inl (he ▸ hke))
    · rename_i sval hdd
      split at h
      · have he := Except.error.inj h
        exact Or.inr (Or.inr (by rw [← he]; rfl))
      · exact absurd h (by simp)

/-- Only the documented kinds or `ValueError` escape the stats loop. -/
theorem statsLoop_error_kinds (acc : String → Option PyVal)
    (ss : List (String × PyVal)) :
    ∀ (keys : List String) (e : PSErr),
      statsLoop acc ss keys = Except.error e →
      PSErr.isDocumented e = true ∨ e = PSErr.valueError := by
  intro keys
  induction keys with
  | nil =>
    intro e h
    exact absurd h (by simp [statsLoop])
  | cons k rest ih =>
    intro e h
    unfold statsLoop at h
    cases hc : catchKeyAttr k (statTryBody acc ss k) with
    | ok u =>
      rw [hc] at h
      exact ih e h
    | error e0 =>
      rw [hc] at h
      have he : e0 = e := Except.error.inj h
      subst he
      rcases catchKeyAttr_error_cases k _ e0 hc with h1 | h1 | ⟨h1, hk, ha⟩
      · rw [h1]
        exact Or.inl rfl
      · rw [h1]
        exact Or.inl rfl
      · rcases statTryBody_error_kinds acc ss k e0 h1 with h2 | h2 | h2 | h2
        · exact absurd h2 ha
        · exact absurd h2 hk
        · exact Or.inr h2
        · exact Or.inl h2

/-- Only the documented kinds or `ValueError` escape `validate_stats`. -/
theorem validate_stats_error_kinds (acc : String → Option PyVal)
    (ss si : List (String × PyVal)) (e : PSErr) :
    validate_stats acc ss si = Except.error e →
    PSErr.isDocumented e = true ∨ e = PSErr.valueError := by
  unfold validate_stats
  cases hs : statsLoop acc ss STATS_TO_MATCH with
  | error e0 =>
    intro h
    have he : e0 = e := Except.error.inj h
    subst he
    exact statsLoop_error_kinds acc ss STATS_TO_MATCH e0 hs
  | ok u =>
    intro h
    unfold INVENTORY_TO_MATCH invLoop at h
    cases hc : catchKeyAttr ("power_state") (invTryBody acc (Sum.inl si) ("power_state")) with
    | ok nv =>
      rw [hc] at h
      exact absurd h (by simp [invLoop])
    | error e0 =>
      rw [hc] at h
      have he : e0 = e := Except.error.inj h
      subst he
      rcases catchKeyAttr_error_cases _ _ e0 hc with h1 | h1 | ⟨h1, hk, ha⟩
      · rw [h1]
        exact Or.inl rfl
      · rw [h1]
        exact Or.inl rfl
      · rcases invTryBody_error_kinds acc si ("power_state") e0 h1 with h2 | h2 | h2
        · exact absurd h2 ha
        · exact absurd h2 hk
        · exact Or.inl h2

/-- C4 as stated is false on the code: a non-numeric UI stat value makes
`validate_stats` raise `ValueError`, which is none of the three documented
error kinds. -/
theorem claim_C4_counterexample :
    validate_stats (fun _ => some (PyVal.str ("x")))
        [("cores_capacity", PyVal.int 16), ("memory_capacity", PyVal.int 1)]
        [("power_state", PyVal.int 1)] = Except.error PSErr.valueError ∧
    PSErr.isDocumented PSErr.valueError = false :=
  ⟨rfl, rfl⟩

/-- C4 (amended): for any requested key, a remote mapping lacking the key
(the key's UI accessor being present and `int()`-convertible where the
stats loop converts) raises the "stats missing" error
`HostStatsNotContains` naming that key, and a missing accessor raises the
"capability missing" error `ProviderHasNoProperty` naming that key — in
both loops; and the only error kinds `validate_stats` produces are these
two, `StatsDoNotMatch`, and the undocumented `ValueError` escaping from
`int()`. -/
theorem claim_C4_amended (acc : String → Option PyVal) (ss si : List (String × PyVal)) :
    (∀ k, acc k = none →
      catchKeyAttr k (statTryBody acc ss k) =
        Except.error (PSErr.providerHasNoProperty k)) ∧
    (∀ k v n, acc k = some v → pyToInt v = Except.ok n →
      dictLookup ss k = Except.error PSErr.keyError →
      catchKeyAttr k (statTryBody acc ss k) =
        Except.error (PSErr.hostStatsNotContains k)) ∧
    (∀ k, acc k = none →
      catchKeyAttr k (invTryBody acc (Sum.inl si) k) =
        Except.error (PSErr.providerHasNoProperty k)) ∧
    (∀ k v, acc k = some v → dictLookup si k = Except.error PSErr.keyError →
      catchKeyAttr k (invTryBody acc (Sum.inl si) k) =
        Except.error (PSErr.hostStatsNotContains k)) ∧
    (∀ e, validate_stats acc ss si = Except.error e →
      PSErr.isDocumented e = true ∨ e = PSErr.valueError) := by
  refine ⟨?_, ?_, ?_, ?_, ?_⟩
  · intro k hk
    simp only [statTryBody, hk]
    rfl
  · intro k v n hv hn hd
    simp only [statTryBody, hv, hn, hd]
    rfl
  · intro k hk
    simp only [invTryBody, hk]
    rfl
  · intro k v hv hd
    have hg : getItemInv (Sum.inl si) k = Except.error PSErr.keyError := by
      simpa [getItemInv] using hd
    simp only [invTryBody, hv, hg]
    rfl
  · intro e h
    exact validate_stats_error_kinds acc ss si e h

/-- The concrete accessor table of the C4 witness: no accessor for
`memory_capacity`, a string accessor for `power_state`, an integer
accessor for everything else. -/
def acc_c4 : String → Option PyVal := fun k =>
  if k = "memory_capacity" then none
  else if k = "power_state" then some (PyVal.str ("on"))
  else some (PyVal.int 7)

/-- Witness for C4 (amended) against empty remote mappings: missing
accessor and missing remote key each produce the documented error naming
the key, in both loops, and the full run's error kind is documented. -/
theorem claim_C4_witness :
    catchKeyAttr ("memory_capacity") (statTryBody acc_c4 [] ("memory_capacity")) =
      Except.error (PSErr.providerHasNoProperty ("memory_capacity")) ∧
    catchKeyAttr ("cores_capacity") (statTryBody acc_c4 [] ("cores_capacity")) =
      Except.error (PSErr.hostStatsNotContains ("cores_capacity")) ∧
    catchKeyAttr ("memory_capacity") (invTryBody acc_c4 (Sum.inl []) ("memory_capacity")) =
      Except.error (PSErr.providerHasNoProperty ("memory_capacity")) ∧
    catchKeyAttr ("power_state") (invTryBody acc_c4 (Sum.inl []) ("power_state")) =
      Except.error (PSErr.hostStatsNotContains ("power_state")) ∧
    (PSErr.isDocumented (PSErr.hostStatsNotContains ("cores_capacity")) = true ∨
      PSErr.hostStatsNotContains ("cores_capacity") = PSErr.valueError) := by
  have h := claim_C4_amended acc_c4 [] []
  refine ⟨h.1 ("memory_capacity") rfl, ?_, h.2.2.1 ("memory_capacity") rfl, ?_, ?_⟩
  · exact h.2.1 ("cores_capacity") (PyVal.int 7) 7 rfl rfl rfl
  · exact h.2.2.2.1 ("power_state") (PyVal.str ("on")) rfl rfl
  · exact h.2.2.2.2 (PSErr.hostStatsNotContains ("cores_capacity")) rfl
